import Mathlib

/-!
Verification development for the Climate-Policy-Maker repository.

The repository is a thin pipeline: a FastAPI backend (`src/backend/main.py`,
the richer variant, and `src/main.py`, an older variant) that aggregates
weather data and forwards a prompt to a chat-completion provider, and a
Streamlit dashboard client (`src/app.py`) with a TTL-cached fetch, chart
derivation and a PDF export.

The shallow embedding below models each Python function as a Lean function.
External HTTP calls are injected as `Except PyError Json` values (the result
of `requests.get(...).json()` / `requests.post(...).json()`, or the exception
the call raised).  A function whose Lean result is `Except.error e` models a
Python function out of which the exception `e` propagates uncaught; a result
of `Except.ok j` models a normal return of the JSON-like value `j`.
-/

namespace ClimatePolicy

/-- Python's substring containment on raw character lists:
`isPrefixList p s` is `True` iff `p` is a prefix of `s`. -/
def isPrefixList : List Char → List Char → Bool
  | [], _ => true
  | _ :: _, [] => false
  | a :: as, b :: bs => a == b && isPrefixList as bs

/-- `isSubstrList p s` is Python's `p in s` on strings (contiguous substring). -/
def isSubstrList (p : List Char) : List Char → Bool
  | [] => p.isEmpty
  | c :: rest => isPrefixList p (c :: rest) || isSubstrList p rest

/-- `strContainsSub s pat` models Python's `pat in s` for strings. -/
def strContainsSub (s pat : String) : Bool :=
  isSubstrList pat.data s.data

/-- A JSON-like value, as produced by `.json()` on an HTTP response. -/
inductive Json where
  | null
  | str (s : String)
  | num (n : Int)
  | arr (elems : List Json)
  | obj (fields : List (String × Json))

/-- Dictionary lookup `j[k]` when it succeeds: first binding of key `k`
in an object, `none` otherwise. -/
def Json.getKey (j : Json) (k : String) : Option Json :=
  match j with
  | .obj fields => fields.lookup k
  | _ => none

/-- Python's `k in j` membership test on a dict (false on non-dicts). -/
def Json.hasKey (j : Json) (k : String) : Bool :=
  match j.getKey k with
  | some _ => true
  | none => false

/-- The keys of a JSON object, in order (empty for non-objects). -/
def Json.objKeys (j : Json) : List String :=
  match j with
  | .obj fields => fields.map Prod.fst
  | _ => []

/-- A Python exception, as it escapes the modelled code. -/
inductive PyError where
  | keyError (k : String)
  | indexError
  | typeError
  | requestError (msg : String)
  deriving DecidableEq, Repr

/-- Python's `str(e)` on the modelled exceptions (as used by the
`except Exception as e: return {"error": str(e)}` handler). -/
def errStr : PyError → String
  | .keyError k => "'" ++ k ++ "'"
  | .indexError => "list index out of range"
  | .typeError => "type error"
  | .requestError m => m

/-- Unguarded dict access `j[k]`: raises `KeyError` when the key is absent
and `TypeError` when `j` is not a dict. -/
def getKeyE (j : Json) (k : String) : Except PyError Json :=
  match j with
  | .obj fields =>
    match fields.lookup k with
    | some v => Except.ok v
    | none => Except.error (PyError.keyError k)
  | _ => Except.error PyError.typeError

/-- Unguarded list indexing `j[i]`: raises `IndexError` when out of range
and `TypeError` when `j` is not a list. -/
def indexE (j : Json) (i : Nat) : Except PyError Json :=
  match j with
  | .arr elems =>
    match elems.get? i with
    | some v => Except.ok v
    | none => Except.error PyError.indexError
  | _ => Except.error PyError.typeError

/-- The three upstream HTTP results consumed by `get_weather`
(`src/backend/main.py` lines 24-51): the geocoding `.json()`, the
Open-Meteo forecast `.json()` and the WeatherAPI current-conditions
`.json()`.  `Except.error e` models the call raising exception `e`. -/
structure WeatherEnv where
  geo : Except PyError Json
  forecast : Except PyError Json
  current : Except PyError Json

/-- The body of the `try:` block of `get_weather`: geocode, early-return
`{"error": "City not found"}` when `"results" not in geo_data`, then the
unguarded `geo_data["results"][0]["latitude"]` / `["longitude"]` accesses,
then the two provider calls, then the merged bundle.  Exception
propagation is spelled out match by match so the definition reduces. -/
def get_weather_body (city : String) (env : WeatherEnv) : Except PyError Json :=
  match env.geo with
  | .error e => .error e
  | .ok geo_data =>
    if geo_data.hasKey "results" = false then
      .ok (Json.obj [("error", Json.str "City not found")])
    else
      match getKeyE geo_data "results" with
      | .error e => .error e
      | .ok results =>
        match indexE results 0 with
        | .error e => .error e
        | .ok first =>
          match getKeyE first "latitude" with
          | .error e => .error e
          | .ok _ =>
            match getKeyE first "longitude" with
            | .error e => .error e
            | .ok _ =>
              match env.forecast with
              | .error e => .error e
              | .ok open_meteo_data =>
                match env.current with
                | .error e => .error e
                | .ok weatherapi_data =>
                  .ok (Json.obj
                    [("city", Json.str city),
                     ("OpenMeteo", open_meteo_data),
                     ("WeatherAPI", weatherapi_data)])

/-- `get_weather` (`src/backend/main.py` lines 22-51): the whole body is
wrapped in `try: ... except Exception as e: return {"error": str(e)}`, so
the endpoint always returns a JSON value and never lets an exception out. -/
def get_weather (city : String) (env : WeatherEnv) : Json :=
  match get_weather_body city env with
  | .ok j => j
  | .error e => Json.obj [("error", Json.str (errStr e))]

/-- The fixed keyword list of the topic guard
(`src/backend/main.py` line 66). -/
def keywords : List String :=
  ["climate", "weather", "environment", "sustainability", "policy", "green",
   "energy", "emission", "carbon", "pollution", "temperature",
   "precipitation", "flood", "drought"]

/-- Python's `s.lower()`, character by character (every keyword and
prompt character of interest is ASCII). -/
def lowerStr (s : String) : String :=
  ⟨s.data.map Char.toLower⟩

/-- `any(word in user_prompt.lower() for word in [...])`
(`src/backend/main.py` lines 64-67). -/
def topic_ok (user_prompt : String) : Bool :=
  keywords.any (fun w => strContainsSub (lowerStr user_prompt) w)

/-- The rejection body returned when the topic guard fires
(`src/backend/main.py` line 68). -/
def rejection_response : Json :=
  Json.obj [("message", Json.str
    "❌ This model is designed for climate-related problems. Please provide a climate-related prompt.")]

/-- Upstream environment for `generate_policy`: the weather-provider results
plus the chat-completion `.json()` result (or the exception the
`requests.post` call raised). -/
structure PolicyEnv where
  weather : WeatherEnv
  chat : Except PyError Json

/-- The unguarded extraction
`gpt_response["choices"][0]["message"]["content"]`
(`src/backend/main.py` line 91). -/
def extract_policy_text (gpt_response : Json) : Except PyError Json :=
  match getKeyE gpt_response "choices" with
  | .error e => .error e
  | .ok choices =>
    match indexE choices 0 with
    | .error e => .error e
    | .ok first =>
      match getKeyE first "message" with
      | .error e => .error e
      | .ok message => getKeyE message "content"

/-- `generate_policy` of the richer variant (`src/backend/main.py`
lines 54-92).  Returns the endpoint outcome (`Except.error e` = exception
`e` propagates uncaught out of the endpoint function) paired with a flag
recording whether the chat-completion request was issued.  `get_weather`
is invoked first; the topic guard then short-circuits before the chat
call; nothing after the guard is wrapped in a `try`. -/
def generate_policy (city user_prompt modelName : String) (temperature : Int)
    (env : PolicyEnv) : Except PyError Json × Bool :=
  let weather_data := get_weather city env.weather
  let _ := modelName
  let _ := temperature
  if topic_ok user_prompt then
    match env.chat with
    | .error e => (Except.error e, true)
    | .ok gpt_response =>
      match extract_policy_text gpt_response with
      | .error e => (Except.error e, true)
      | .ok content =>
        (Except.ok (Json.obj
          [("city", Json.str city),
           ("weather", weather_data),
           ("policy", content)]), true)
  else
    (Except.ok rejection_response, false)

/-- FastAPI validation of `GET /weather` (`src/backend/main.py` lines 22-23):
`city: str = Query(...)` is a required string query parameter with no
length constraint, so a missing parameter yields a 422 validation error
while a present-but-empty value is accepted as the string `""`.  The
result pairs the HTTP outcome (`Except.error 422` = validation error)
with a flag recording whether `get_weather` was invoked. -/
def weather_endpoint (params : List (String × String)) (env : WeatherEnv) :
    Except Nat Json × Bool :=
  match params.lookup "city" with
  | none => (Except.error 422, false)
  | some city => (Except.ok (get_weather city env), true)

/-! ### Dashboard client (`src/app.py`) -/

/-- The exact memoization key of `fetch_policy`
(`src/app.py` line 29): `(city, model, temperature, user_prompt)`.
The temperature slider value only matters up to equality here, so it is
carried as an integer number of tenths. -/
abbrev CacheKey := String × String × Int × String

/-- One entry of the `st.cache_data(ttl=300)` store backing `fetch_policy`:
the argument tuple, the time the value was stored, and the stored
response body. -/
structure CacheEntry where
  key : CacheKey
  storedAt : Nat
  value : Json

/-- Newest-first lookup in the cache store (a fresh store for a key shadows
any staler entry for the same key). -/
def cacheFind : List CacheEntry → CacheKey → Option CacheEntry
  | [], _ => none
  | e :: rest, k => if e.key = k then some e else cacheFind rest k

/-- `st.cache_data(ttl=300)` hit test: a stored entry serves a call at time
`now` (seconds) only while its age is under the 300-second TTL. -/
def cacheLookup (cache : List CacheEntry) (now : Nat) (k : CacheKey) : Option Json :=
  match cacheFind cache k with
  | some e => if now - e.storedAt < 300 then some e.value else none
  | none => none

/-- Outcome of one call to the cached `fetch_policy`: the returned (or
raised) value, the cache store afterwards, and whether an HTTP request to
the `/policy` endpoint was issued. -/
structure FetchResult where
  result : Except PyError Json
  cache : List CacheEntry
  requestIssued : Bool

/-- `fetch_policy` (`src/app.py` lines 28-33) under `st.cache_data(ttl=300)`:
a fresh cache hit returns the stored value without issuing the HTTP
request; a miss issues the request (`upstream` is its outcome), stores a
successful body, and does not cache a raised exception. -/
def fetch_policy (cache : List CacheEntry) (now : Nat) (k : CacheKey)
    (upstream : Except PyError Json) : FetchResult :=
  match cacheLookup cache now k with
  | some v => ⟨Except.ok v, cache, false⟩
  | none =>
    match upstream with
    | .ok v => ⟨Except.ok v, ⟨k, now, v⟩ :: cache, true⟩
    | .error e => ⟨Except.error e, cache, true⟩

/-- A forecast table: columns in order, each a name with its per-day
values (the values themselves are opaque here). -/
abbrev DataFrame := List (String × List String)

/-- Column renaming of `to_daily_dataframe` (`src/app.py` lines 44-53):
`time` becomes `date`; each of the three metric columns gets the unit
string from `daily_units` appended as `" (u)"` when a non-empty unit is
present. -/
def renameCol (units : List (String × String)) (c : String) : String :=
  if c = "time" then "date"
  else if c = "temperature_2m_max" ∨ c = "temperature_2m_min" ∨ c = "precipitation_sum" then
    match units.lookup c with
    | some u => if u = "" then c else c ++ " (" ++ u ++ ")"
    | none => c
  else c

/-- `to_daily_dataframe` (`src/app.py` lines 36-55): `None`/falsy input or
a payload without a `"daily"` key gives an empty table; otherwise
`pd.DataFrame(daily)` makes one column per key of the parallel-array dict
and the columns are renamed.  `daily` is the parallel-array dict, `units`
the `daily_units` dict; `none` collapses both falsy-input guards. -/
def to_daily_dataframe (daily : Option (List (String × List String)))
    (units : List (String × String)) : DataFrame :=
  match daily with
  | none => []
  | some d => d.map (fun kv => (renameCol units kv.1, kv.2))

/-- Number of rows of the table (the common length of the parallel
column arrays; 0 when there are no columns). -/
def dfRows (df : DataFrame) : Nat :=
  match df with
  | [] => 0
  | kv :: _ => kv.2.length

/-- `df.empty` in pandas: true when the table has no columns or no rows. -/
def dfEmpty (df : DataFrame) : Bool :=
  df.isEmpty || dfRows df == 0

/-- `any(pat in c for c in df.columns)` (`src/app.py` lines 209, 217, 225). -/
def dfHasColContaining (df : DataFrame) (pat : String) : Bool :=
  df.any (fun kv => strContainsSub kv.1 pat)

/-- Exact column membership, `df["name"]` succeeding. -/
def dfHasCol (df : DataFrame) (name : String) : Bool :=
  df.any (fun kv => kv.1 == name)

/-- One chart block of the visualization tab: when a column matching the
metric substring is present the chart is drawn against `df["date"]` —
an unguarded access that raises `KeyError` if the `date` column is
absent; when no column matches, the block is skipped silently. -/
def renderChart (df : DataFrame) (pat : String) : Except PyError Bool :=
  if dfHasColContaining df pat then
    if dfHasCol df "date" then Except.ok true
    else Except.error (PyError.keyError "date")
  else Except.ok false

/-- The chart portion of the visualization tab (`src/app.py` lines
203-231): an empty table shows a warning and draws no chart; otherwise
the max-temperature, min-temperature and precipitation blocks run in
order.  The triple records which charts were rendered. -/
def tab_viz_charts (df : DataFrame) : Except PyError (Bool × Bool × Bool) :=
  if dfEmpty df then Except.ok (false, false, false)
  else
    match renderChart df "temperature_2m_max" with
    | .error e => .error e
    | .ok a =>
      match renderChart df "temperature_2m_min" with
      | .error e => .error e
      | .ok b =>
        match renderChart df "precipitation_sum" with
        | .error e => .error e
        | .ok c => .ok (a, b, c)

/-- Whether a line of the policy text is treated as a bullet item by the
PDF renderer (`src/app.py` line 98). -/
def isBulletLine (line : String) : Bool :=
  line.trim.startsWith "-" || line.trim.startsWith "*"

/-- The flowable story assembled by `render_pdf` when reportlab is
available (`src/app.py` lines 80-105), as the text content in order:
title, city line, timestamp line, weather-summary lines, policy
paragraphs, then the collected bullet items. -/
def buildStory (policy_text city weather_summary timestamp : String) : List String :=
  ["🌍 Climate Policy Report", "City: " ++ city, "Generated on " ++ timestamp,
   "📊 Weather Summary"]
  ++ weather_summary.splitOn "\n"
  ++ ["🌱 Policy Recommendations"]
  ++ ((policy_text.splitOn "\n").filter
        (fun l => !isBulletLine l && l.trim ≠ "")).map String.trim
  ++ ((policy_text.splitOn "\n").filter isBulletLine).map
        (fun l => (l.dropWhile (fun c => c = '-' || c = '*' || c = ' ')).trim)

/-- Serialized document bytes of a story (one byte list per character
code; the exact encoding is irrelevant, only emptiness is observed). -/
def encodeStory (story : List String) : List Nat :=
  story.foldr (fun s acc => s.data.map Char.toNat ++ acc) []

/-- `render_pdf` (`src/app.py` lines 58-116): when the reportlab import
fails a warning is shown and the empty byte string `b""` is returned —
no exception escapes; otherwise the document is built and its bytes
returned. -/
def render_pdf (reportlabAvailable : Bool)
    (policy_text city weather_summary timestamp : String) : List Nat :=
  if reportlabAvailable then
    encodeStory (buildStory policy_text city weather_summary timestamp)
  else []

/-- What the export view shows for a byte string. -/
inductive PdfView where
  | info
  | inline
  deriving DecidableEq, Repr

/-- `show_pdf_inline` (`src/app.py` lines 119-125): an empty byte string
shows the "PDF not available." informational message and returns;
otherwise the document is embedded inline. -/
def show_pdf_inline (pdf_bytes : List Nat) : PdfView :=
  if pdf_bytes.isEmpty then PdfView.info else PdfView.inline

/-- Message shown by the fetch block. -/
inductive UiMsg where
  | success
  | failure (msg : String)
  deriving DecidableEq, Repr

/-- The fetch block of the dashboard (`src/app.py` lines 161-168): on a
successful `fetch_policy` the response overwrites
`st.session_state["last_response"]` and "Done!" is shown; when
`fetch_policy` raises, the stored result is left untouched and the error
message is shown. -/
def run_fetch (last_response : Option Json) (fetched : Except PyError Json) :
    Option Json × UiMsg :=
  match fetched with
  | .ok d => (some d, UiMsg.success)
  | .error e => (last_response, UiMsg.failure ("Failed: " ++ errStr e))

/-- `data.get("policy", "No policy returned.")` in the policy tab
(`src/app.py` line 179): the displayed value falls back to the default
string when the response carries no `policy` key. -/
def tab_policy_value (data : Json) : Json :=
  match data.getKey "policy" with
  | some v => v
  | none => Json.str "No policy returned."

/-! ### Sample upstream payloads used by witnesses and counterexamples -/

/-- A geocoding response with no `results` key (no match for the city). -/
def geoNoResults : Json := Json.obj [("generationtime_ms", Json.num 1)]

/-- A geocoding response resolving the city to coordinates. -/
def geoLahore : Json :=
  Json.obj [("results", Json.arr
    [Json.obj [("latitude", Json.num 31), ("longitude", Json.num 74)]])]

/-- A minimal Open-Meteo forecast response. -/
def forecastSample : Json :=
  Json.obj [("daily", Json.obj [("time", Json.arr [Json.str "2026-10-12"])])]

/-- A minimal WeatherAPI current-conditions response. -/
def currentSample : Json := Json.obj [("location", Json.str "Lahore")]

/-- All three weather-provider calls succeed. -/
def weatherEnvOk : WeatherEnv :=
  ⟨Except.ok geoLahore, Except.ok forecastSample, Except.ok currentSample⟩

/-- A well-formed chat-completion response. -/
def chatSample : Json :=
  Json.obj [("choices", Json.arr
    [Json.obj [("message", Json.obj [("content", Json.str "Plant trees.")])]])]

/-- All upstream calls succeed. -/
def policyEnvOk : PolicyEnv := ⟨weatherEnvOk, Except.ok chatSample⟩

/-- The geocoding call and the chat-completion call both time out. -/
def envTimeout : PolicyEnv :=
  ⟨⟨Except.error (PyError.requestError "timeout"), Except.ok forecastSample,
    Except.ok currentSample⟩,
   Except.error (PyError.requestError "timeout")⟩

/-- A sample `fetch_policy` argument tuple. -/
def sampleKey : CacheKey := ("Lahore", "gpt-4o-mini", 4, "climate policy")

/-- The daily keys an Open-Meteo forecast payload carries here
(the forecast request asks exactly for these fields plus the dates). -/
def omKeys : List String :=
  ["time", "temperature_2m_max", "temperature_2m_min", "precipitation_sum"]

/-- The unit strings the forecast provider supplies for those fields
(temperature and precipitation units, or no unit entry at all). -/
def omUnits : List String := ["°C", "°F", "mm", "inch", ""]

/-- The three metric substrings the chart blocks look for. -/
def metricPats : List String :=
  ["temperature_2m_max", "temperature_2m_min", "precipitation_sum"]

/-- Exact key membership in the daily parallel-array dict. -/
def dailyHas (daily : List (String × List String)) (k : String) : Bool :=
  daily.any (fun kv => kv.1 == k)

/-- A one-day daily dict with dates and max temperature. -/
def dailySample : List (String × List String) :=
  [("time", ["2026-10-12"]), ("temperature_2m_max", ["30"])]

/-! ### Claim theorems -/

/-- C1: whenever `user_prompt` contains none of the fixed climate keywords
as a case-insensitive substring, `generate_policy` in the richer variant
returns the rejection message and issues no request to the
chat-completion provider. -/
theorem generate_policy_rejects_offtopic (city user_prompt modelName : String)
    (temperature : Int) (env : PolicyEnv)
    (hno : ∀ w ∈ keywords, strContainsSub (lowerStr user_prompt) w = false) :
    generate_policy city user_prompt modelName temperature env
      = (Except.ok rejection_response, false) := by
  have h : topic_ok user_prompt = false := by
    rw [topic_ok, List.any_eq_false]
    intro w hw
    simp [hno w hw]
  simp [generate_policy, h]

/-- Witness for C1: the prompt "hello there" contains no climate keyword,
so the call is rejected without a chat request. -/
theorem generate_policy_rejects_offtopic_witness :
    generate_policy "Lahore" "hello there" "gpt-4o-mini" 4 policyEnvOk
      = (Except.ok rejection_response, false) :=
  generate_policy_rejects_offtopic "Lahore" "hello there" "gpt-4o-mini" 4
    policyEnvOk (by decide)

/-- C2 (code bug): on a chat-completion response without the expected
shape, `generate_policy` does not fail with a caught
"malformed upstream response" error — the unguarded
`gpt_response["choices"][0]["message"]["content"]` lets a structural
`KeyError`/`IndexError` propagate uncaught out of the endpoint. -/
theorem generate_policy_malformed_upstream_faults :
    generate_policy "Lahore" "climate policy" "gpt-4o-mini" 4
        ⟨weatherEnvOk, Except.ok (Json.obj [])⟩
      = (Except.error (PyError.keyError "choices"), true) ∧
    generate_policy "Lahore" "climate policy" "gpt-4o-mini" 4
        ⟨weatherEnvOk, Except.ok (Json.obj [("choices", Json.arr [])])⟩
      = (Except.error PyError.indexError, true) := by
  constructor <;> rfl

/-- C3: when the geocoding lookup returns a payload without a `results`
key, `get_weather` returns the `{"error": "City not found"}` body; the
whole endpoint body is inside `try/except`, so no exception reaches the
caller (`get_weather` is a total function into `Json` here). -/
theorem get_weather_city_not_found (city : String) (env : WeatherEnv) (g : Json)
    (hgeo : env.geo = Except.ok g) (hres : g.hasKey "results" = false) :
    get_weather city env = Json.obj [("error", Json.str "City not found")] := by
  simp [get_weather, get_weather_body, hgeo, hres]

/-- Witness for C3: a concrete geocoding payload with no `results` key. -/
theorem get_weather_city_not_found_witness :
    get_weather "Nowhere12345"
        ⟨Except.ok geoNoResults, Except.ok forecastSample, Except.ok currentSample⟩
      = Json.obj [("error", Json.str "City not found")] :=
  get_weather_city_not_found "Nowhere12345"
    ⟨Except.ok geoNoResults, Except.ok forecastSample, Except.ok currentSample⟩
    geoNoResults rfl (by decide)

/-- C4 counterexample: a failing chat-completion call is NOT caught —
`requests.post` in `generate_policy` is outside any `try`, so the
exception propagates uncaught out of the endpoint function instead of
being surfaced as a JSON body with an `error` field. -/
theorem generate_policy_chat_failure_uncaught :
    generate_policy "Lahore" "climate policy" "gpt-4o-mini" 4 envTimeout
      = (Except.error (PyError.requestError "timeout"), true) := by
  rfl

/-- C4 (amended): failures of the weather-provider calls inside
`get_weather` are caught and surfaced as a JSON body with an `error`
field (the endpoint returns it with a success-class status), but a
failure of the chat-completion call in `generate_policy` propagates as
an uncaught exception out of the endpoint function. -/
theorem weather_caught_chat_uncaught (city user_prompt modelName : String)
    (temperature : Int) (env : PolicyEnv) (e : PyError) :
    (get_weather_body city env.weather = Except.error e →
      get_weather city env.weather = Json.obj [("error", Json.str (errStr e))]) ∧
    (topic_ok user_prompt = true → env.chat = Except.error e →
      generate_policy city user_prompt modelName temperature env
        = (Except.error e, true)) := by
  constructor
  · intro h
    simp [get_weather, h]
  · intro h1 h2
    simp [generate_policy, h1, h2]

/-- Witness for the amended C4: a timing-out geocoding call is caught and
surfaced, while the timing-out chat-completion call escapes. -/
theorem weather_caught_chat_uncaught_witness :
    get_weather "Lahore" envTimeout.weather = Json.obj [("error", Json.str "timeout")] ∧
    generate_policy "Lahore" "climate policy" "gpt-4o-mini" 4 envTimeout
      = (Except.error (PyError.requestError "timeout"), true) :=
  ⟨(weather_caught_chat_uncaught "Lahore" "climate policy" "gpt-4o-mini" 4
      envTimeout (PyError.requestError "timeout")).1 rfl,
   (weather_caught_chat_uncaught "Lahore" "climate policy" "gpt-4o-mini" 4
      envTimeout (PyError.requestError "timeout")).2 (by decide) rfl⟩

/-- C7: with the reportlab dependency unavailable, `render_pdf` returns
the empty byte sequence (no exception — the import failure is caught),
and the export view maps the empty result to the informational
"PDF not available." message, not an exception. -/
theorem render_pdf_unavailable_empty (policy_text city weather_summary timestamp : String) :
    render_pdf false policy_text city weather_summary timestamp = [] ∧
    show_pdf_inline (render_pdf false policy_text city weather_summary timestamp)
      = PdfView.info := by
  constructor <;> simp [render_pdf, show_pdf_inline]

/-- C8: a failed fetch leaves the stored session result untouched and
shows the error message; only a successful fetch overwrites it. -/
theorem run_fetch_frame (last : Option Json) (e : PyError) (d : Json) :
    run_fetch last (Except.error e) = (last, UiMsg.failure ("Failed: " ++ errStr e)) ∧
    run_fetch last (Except.ok d) = (some d, UiMsg.success) :=
  ⟨rfl, rfl⟩

/-- C9 counterexample: a present-but-empty `city` query parameter passes
FastAPI validation (a plain required `str` has no length constraint), so
the endpoint invokes the weather aggregation with `city = ""` and
returns a success-class response — no 422 validation error. -/
theorem weather_endpoint_empty_city_accepted :
    weather_endpoint [("city", "")]
        ⟨Except.ok geoNoResults, Except.ok forecastSample, Except.ok currentSample⟩
      = (Except.ok (Json.obj [("error", Json.str "City not found")]), true) := by
  rfl

/-- C9 (amended): a missing `city` query parameter triggers the 422
validation error without invoking the aggregation logic, while a
present-but-empty `city` is accepted and the aggregation runs on `""`. -/
theorem weather_endpoint_validation (params : List (String × String)) (env : WeatherEnv) :
    (params.lookup "city" = none →
      weather_endpoint params env = (Except.error 422, false)) ∧
    (params.lookup "city" = some "" →
      weather_endpoint params env = (Except.ok (get_weather "" env), true)) := by
  constructor <;> intro h <;> simp [weather_endpoint, h]

/-- Witness for the amended C9: no parameters at all gives the 422; an
empty `city` value reaches `get_weather`. -/
theorem weather_endpoint_validation_witness :
    weather_endpoint [] weatherEnvOk = (Except.error 422, false) ∧
    weather_endpoint [("city", "")] weatherEnvOk
      = (Except.ok (get_weather "" weatherEnvOk), true) :=
  ⟨(weather_endpoint_validation [] weatherEnvOk).1 rfl,
   (weather_endpoint_validation [("city", "")] weatherEnvOk).2 rfl⟩

/-- C10: a response rejected by the topic guard is an object whose only
key is `message` — it has no `city`, `weather` or `policy` field — and
the policy tab reading `data.get("policy", ...)` on it falls back to the
default string. -/
theorem rejection_response_only_message (city user_prompt modelName : String)
    (temperature : Int) (env : PolicyEnv) (r : Json)
    (hguard : topic_ok user_prompt = false)
    (hr : (generate_policy city user_prompt modelName temperature env).1 = Except.ok r) :
    r.objKeys = ["message"] ∧ r.getKey "policy" = none ∧
    r.getKey "city" = none ∧ r.getKey "weather" = none ∧
    tab_policy_value r = Json.str "No policy returned." := by
  have hrr : r = rejection_response := by
    simp [generate_policy, hguard] at hr
    exact hr.symm
  subst hrr
  exact ⟨rfl, rfl, rfl, rfl, rfl⟩

/-- Witness for C10: the concrete rejection of the prompt "hello there". -/
theorem rejection_response_only_message_witness :
    Json.objKeys rejection_response = ["message"] ∧
    Json.getKey rejection_response "policy" = none ∧
    Json.getKey rejection_response "city" = none ∧
    Json.getKey rejection_response "weather" = none ∧
    tab_policy_value rejection_response = Json.str "No policy returned." :=
  rejection_response_only_message "Lahore" "hello there" "gpt-4o-mini" 4
    policyEnvOk rejection_response (by decide) rfl

/-- C5: two calls to the cached `fetch_policy` with an identical
`(city, model, temperature, user_prompt)` tuple: the first (a cache
miss) issues the request and stores the body; a second call within the
300-second window issues no request and returns the same cached body; a
second call at or past the window re-issues the request. -/
theorem fetch_policy_cache_idempotent (c : List CacheEntry) (k : CacheKey)
    (t1 t2 : Nat) (v : Json) (up2 : Except PyError Json)
    (hfresh : cacheLookup c t1 k = none) :
    (fetch_policy c t1 k (Except.ok v)).requestIssued = true ∧
    (t2 - t1 < 300 →
      fetch_policy (fetch_policy c t1 k (Except.ok v)).cache t2 k up2
        = ⟨Except.ok v, (fetch_policy c t1 k (Except.ok v)).cache, false⟩) ∧
    (300 ≤ t2 - t1 →
      (fetch_policy (fetch_policy c t1 k (Except.ok v)).cache t2 k up2).requestIssued
        = true) := by
  have hc : (fetch_policy c t1 k (Except.ok v)).cache = ⟨k, t1, v⟩ :: c := by
    simp [fetch_policy, hfresh]
  refine ⟨by simp [fetch_policy, hfresh], ?_, ?_⟩
  · intro hlt
    rw [hc]
    simp [fetch_policy, cacheLookup, cacheFind, hlt]
  · intro hge
    rw [hc]
    have hnlt : ¬ (t2 - t1 < 300) := by omega
    cases up2 <;> simp [fetch_policy, cacheLookup, cacheFind, hnlt]

/-- Witness for C5: a second call 100 seconds after the first returns the
first body from the cache without a request, even though the endpoint
would now answer differently. -/
theorem fetch_policy_cache_idempotent_witness :
    fetch_policy (fetch_policy [] 0 sampleKey (Except.ok (Json.str "r1"))).cache
        100 sampleKey (Except.ok (Json.str "r2"))
      = ⟨Except.ok (Json.str "r1"),
         (fetch_policy [] 0 sampleKey (Except.ok (Json.str "r1"))).cache, false⟩ :=
  (fetch_policy_cache_idempotent [] sampleKey 0 100 (Json.str "r1")
    (Except.ok (Json.str "r2")) rfl).2.1 (by decide)

/-! ### Chart derivation (C6) -/

/-- `List.lookup` only ever returns a stored pair. -/
theorem lookup_mem_pairs {l : List (String × String)} {k u : String}
    (h : l.lookup k = some u) : (k, u) ∈ l := by
  induction l with
  | nil => simp at h
  | cons p rest ih =>
    obtain ⟨a, b⟩ := p
    cases hab : (k == a) with
    | false =>
      rw [List.lookup_cons, hab] at h
      exact List.mem_cons_of_mem _ (ih h)
    | true =>
      rw [List.lookup_cons, hab] at h
      obtain rfl : k = a := eq_of_beq hab
      obtain rfl : b = u := Option.some.inj h
      exact List.mem_cons_self _ _

/-- Over the Open-Meteo key set and unit vocabulary, a (possibly
unit-suffixed) column name contains a metric substring exactly when it is
that metric's own column. -/
theorem strContains_name_pat (u : String) (hu : u ∈ omUnits) :
    ∀ k ∈ omKeys, ∀ pat ∈ metricPats,
      strContainsSub (if u = "" then k else k ++ " (" ++ u ++ ")") pat = (k == pat) := by
  simp only [omUnits, List.mem_cons, List.not_mem_nil, or_false] at hu
  rcases hu with rfl | rfl | rfl | rfl | rfl <;> decide

/-- The renamed column of an Open-Meteo daily key contains a metric
substring exactly when the key is that metric. -/
theorem renameCol_contains (units : List (String × String))
    (hunits : ∀ kv ∈ units, (kv.2 : String) ∈ omUnits)
    {k : String} (hk : k ∈ omKeys) {pat : String} (hpat : pat ∈ metricPats) :
    strContainsSub (renameCol units k) pat = (k == pat) := by
  simp only [omKeys, List.mem_cons, List.not_mem_nil, or_false] at hk
  rcases hk with rfl | rfl | rfl | rfl
  · have hr : renameCol units "time" = "date" := rfl
    rw [hr]
    simp only [metricPats, List.mem_cons, List.not_mem_nil, or_false] at hpat
    rcases hpat with rfl | rfl | rfl <;> decide
  all_goals {
    first
    | (cases hl : units.lookup "temperature_2m_max" with
       | none =>
         have hr : renameCol units "temperature_2m_max" = "temperature_2m_max" := by
           unfold renameCol
           rw [if_neg (by decide), if_pos (by decide), hl]
         rw [hr]
         exact strContains_name_pat "" (by decide) _ (by decide) _ hpat
       | some u =>
         have hu : u ∈ omUnits := hunits ("temperature_2m_max", u) (lookup_mem_pairs hl)
         have hr : renameCol units "temperature_2m_max"
             = if u = "" then "temperature_2m_max"
               else "temperature_2m_max" ++ " (" ++ u ++ ")" := by
           unfold renameCol
           rw [if_neg (by decide), if_pos (by decide), hl]
         rw [hr]
         exact strContains_name_pat u hu _ (by decide) _ hpat)
    | (cases hl : units.lookup "temperature_2m_min" with
       | none =>
         have hr : renameCol units "temperature_2m_min" = "temperature_2m_min" := by
           unfold renameCol
           rw [if_neg (by decide), if_pos (by decide), hl]
         rw [hr]
         exact strContains_name_pat "" (by decide) _ (by decide) _ hpat
       | some u =>
         have hu : u ∈ omUnits := hunits ("temperature_2m_min", u) (lookup_mem_pairs hl)
         have hr : renameCol units "temperature_2m_min"
             = if u = "" then "temperature_2m_min"
               else "temperature_2m_min" ++ " (" ++ u ++ ")" := by
           unfold renameCol
           rw [if_neg (by decide), if_pos (by decide), hl]
         rw [hr]
         exact strContains_name_pat u hu _ (by decide) _ hpat)
    | (cases hl : units.lookup "precipitation_sum" with
       | none =>
         have hr : renameCol units "precipitation_sum" = "precipitation_sum" := by
           unfold renameCol
           rw [if_neg (by decide), if_pos (by decide), hl]
         rw [hr]
         exact strContains_name_pat "" (by decide) _ (by decide) _ hpat
       | some u =>
         have hu : u ∈ omUnits := hunits ("precipitation_sum", u) (lookup_mem_pairs hl)
         have hr : renameCol units "precipitation_sum"
             = if u = "" then "precipitation_sum"
               else "precipitation_sum" ++ " (" ++ u ++ ")" := by
           unfold renameCol
           rw [if_neg (by decide), if_pos (by decide), hl]
         rw [hr]
         exact strContains_name_pat u hu _ (by decide) _ hpat) }

/-- A chart block's substring scan over the derived table equals exact
key membership in the daily dict. -/
theorem dfHasColContaining_daily (daily : List (String × List String))
    (units : List (String × String))
    (hkeys : ∀ kv ∈ daily, (kv.1 : String) ∈ omKeys)
    (hunits : ∀ kv ∈ units, (kv.2 : String) ∈ omUnits)
    {pat : String} (hpat : pat ∈ metricPats) :
    dfHasColContaining (to_daily_dataframe (some daily) units) pat
      = dailyHas daily pat := by
  induction daily with
  | nil => rfl
  | cons kv rest ih =>
    have h1 : kv.1 ∈ omKeys := hkeys kv (List.mem_cons_self _ _)
    have h2 : ∀ kv2 ∈ rest, (kv2.1 : String) ∈ omKeys :=
      fun kv2 hh => hkeys kv2 (List.mem_cons_of_mem _ hh)
    have hrest := ih h2
    simp only [to_daily_dataframe, List.map_cons, dfHasColContaining, List.any_cons,
      dailyHas] at hrest ⊢
    rw [renameCol_contains units hunits h1 hpat, hrest]

/-- When the daily dict has a `time` array, the derived table has a
`date` column. -/
theorem dfHasCol_date (daily : List (String × List String))
    (units : List (String × String))
    (htime : "time" ∈ daily.map Prod.fst) :
    dfHasCol (to_daily_dataframe (some daily) units) "date" = true := by
  induction daily with
  | nil => simp at htime
  | cons kv rest ih =>
    simp only [List.map_cons, List.mem_cons] at htime
    simp only [to_daily_dataframe, List.map_cons, dfHasCol, List.any_cons]
    rcases htime with h | h
    · have hd : renameCol units kv.1 = "date" := by
        rw [← h]
        rfl
      simp [hd]
    · have hrest := ih h
      simp only [to_daily_dataframe, dfHasCol] at hrest
      simp [hrest]

/-- One table row per input day: the table inherits the common length of
the parallel arrays. -/
theorem dfRows_daily (daily : List (String × List String))
    (units : List (String × String)) (n : Nat)
    (hn : ∀ kv ∈ daily, (kv.2 : List String).length = n)
    (hne : daily ≠ []) :
    dfRows (to_daily_dataframe (some daily) units) = n := by
  cases daily with
  | nil => exact absurd rfl hne
  | cons kv rest => exact hn kv (List.mem_cons_self _ _)

/-- A nonempty daily dict with at least one day gives a non-empty table. -/
theorem dfEmpty_daily_false (daily : List (String × List String))
    (units : List (String × String)) (n : Nat)
    (hn : ∀ kv ∈ daily, (kv.2 : List String).length = n)
    (hpos : 1 ≤ n) (hne : daily ≠ []) :
    dfEmpty (to_daily_dataframe (some daily) units) = false := by
  cases daily with
  | nil => exact absurd rfl hne
  | cons kv rest =>
    have hlen : (kv.2 : List String).length = n := hn kv (List.mem_cons_self _ _)
    simp only [dfEmpty, to_daily_dataframe, List.map_cons, dfRows, List.isEmpty,
      Bool.false_or, hlen]
    simp only [beq_eq_false_iff_ne, ne_eq]
    omega

/-- One chart block over a well-shaped daily dict renders exactly when
the metric key is in the dict, and raises nothing. -/
theorem renderChart_daily (daily : List (String × List String))
    (units : List (String × String))
    (hkeys : ∀ kv ∈ daily, (kv.1 : String) ∈ omKeys)
    (hunits : ∀ kv ∈ units, (kv.2 : String) ∈ omUnits)
    (htime : "time" ∈ daily.map Prod.fst)
    (pat : String) (hpat : pat ∈ metricPats) :
    renderChart (to_daily_dataframe (some daily) units) pat
      = Except.ok (dailyHas daily pat) := by
  have h1 := dfHasColContaining_daily daily units hkeys hunits hpat
  cases hd : dailyHas daily pat with
  | false =>
    rw [hd] at h1
    simp [renderChart, h1]
  | true =>
    rw [hd] at h1
    simp [renderChart, h1, dfHasCol_date daily units htime]

/-- C6 (amended): for an Open-Meteo daily dict of parallel per-day arrays
over the provider's keys and units that includes the `time` array and
covers at least one day, the derived table has exactly one row per input
day, and each of the three charts is rendered exactly when its source
column is present (an absent source column silently omits that chart).
Without the provisos the claim fails: zero days render no charts even
when the columns are present, and a missing `time` array makes an
attempted chart raise a `date` lookup error. -/
theorem to_daily_dataframe_rows_and_charts (daily : List (String × List String))
    (units : List (String × String)) (n : Nat)
    (hn : ∀ kv ∈ daily, (kv.2 : List String).length = n)
    (hkeys : ∀ kv ∈ daily, (kv.1 : String) ∈ omKeys)
    (hunits : ∀ kv ∈ units, (kv.2 : String) ∈ omUnits)
    (htime : "time" ∈ daily.map Prod.fst)
    (hpos : 1 ≤ n) :
    dfRows (to_daily_dataframe (some daily) units) = n ∧
    tab_viz_charts (to_daily_dataframe (some daily) units)
      = Except.ok (dailyHas daily "temperature_2m_max",
          dailyHas daily "temperature_2m_min",
          dailyHas daily "precipitation_sum") := by
  have hne : daily ≠ [] := by
    intro h
    rw [h] at htime
    simp at htime
  refine ⟨dfRows_daily daily units n hn hne, ?_⟩
  have hempty := dfEmpty_daily_false daily units n hn hpos hne
  have h1 := renderChart_daily daily units hkeys hunits htime
    "temperature_2m_max" (by decide)
  have h2 := renderChart_daily daily units hkeys hunits htime
    "temperature_2m_min" (by decide)
  have h3 := renderChart_daily daily units hkeys hunits htime
    "precipitation_sum" (by decide)
  simp [tab_viz_charts, hempty, h1, h2, h3]

/-- Witness for the amended C6: one day with dates and max temperature
gives a one-row table, a max-temperature chart, and no other chart. -/
theorem to_daily_dataframe_rows_and_charts_witness :
    dfRows (to_daily_dataframe (some dailySample) [("temperature_2m_max", "°C")]) = 1 ∧
    tab_viz_charts (to_daily_dataframe (some dailySample) [("temperature_2m_max", "°C")])
      = Except.ok (dailyHas dailySample "temperature_2m_max",
          dailyHas dailySample "temperature_2m_min",
          dailyHas dailySample "precipitation_sum") :=
  to_daily_dataframe_rows_and_charts dailySample [("temperature_2m_max", "°C")] 1
    (by decide) (by decide) (by decide) (by decide) (by decide)

/-- C6 counterexample: a parallel-array daily dict with a max-temperature
column but no `time` array gives a one-row table whose source column is
present, yet the chart block raises a `date` `KeyError` instead of
rendering the chart (or silently omitting it). -/
theorem tab_viz_missing_time_errors :
    dfRows (to_daily_dataframe (some [("temperature_2m_max", ["30"])]) []) = 1 ∧
    dfHasColContaining (to_daily_dataframe (some [("temperature_2m_max", ["30"])]) [])
      "temperature_2m_max" = true ∧
    tab_viz_charts (to_daily_dataframe (some [("temperature_2m_max", ["30"])]) [])
      = Except.error (PyError.keyError "date") :=
  ⟨rfl, rfl, rfl⟩

end ClimatePolicy
